import Mathlib

/-!
Shallow embedding of `entt::delegate<Ret(Args...)>` from
`src/entt/signal/delegate.hpp`.

The C++ object holds two fields (lines 270-272):
  * `storage` : `std::aligned_storage_t<sizeof(void *), alignof(void *)>`,
    a pointer-sized byte buffer (8 bytes on the modelled LP64 platform);
  * `fn` : `Ret(*)(storage_type &, Args...)`, the trampoline pointer.

Modelling decisions:
  * `storage` is a machine word, a `Nat` kept `< 2 ^ 64`.  Placement-new of a
    `k`-byte trivially copyable object into the buffer overwrites exactly the
    low `k` bytes (object at offset 0; little-endian byte order), leaving the
    remaining `8 - k` bytes of the buffer untouched — `writeBytes`.
    `reinterpret_cast` back reads exactly those `k` bytes — `readBytes`.
  * the trampoline pointer is defunctionalized: each `connect` overload
    instantiates one lambda per template-argument tuple, so a function pointer
    is identified by the tag of that instantiation (`Tramp`).  C++ pointer
    equality of trampolines becomes propositional equality of tags.
  * member functions mutate their instance: a heap `Heap C := Nat → C` maps
    addresses to objects and is threaded through invocation.  A member
    function is semantically `m : C → A → R × C` (result, updated object);
    a mutable function object is `ocall : O → A → R × O`.
  * `assert(fn)` followed by a call through a possibly-null pointer is
    modelled by `Option`: invoking an unbound delegate yields `none`.
-/

set_option linter.unusedVariables false

namespace entt

/-- `sizeof(void *)` on the modelled platform. -/
def ptrSize : Nat := 8

/-- Number of distinct contents of a `k`-byte buffer. -/
def byteSpan (k : Nat) : Nat := 2 ^ (8 * k)

/-- The full pointer-sized word bound, `2 ^ 64`. -/
def wordSpan : Nat := byteSpan ptrSize

theorem byteSpan_pos (k : Nat) : 0 < byteSpan k :=
  Nat.pos_pow_of_pos _ (by decide)

/-- Placement-new of a `k`-byte object with representation `v` at the start of
the buffer whose current content is `s`: the low `k` bytes become `v`, the
bytes above them are left as they were. -/
def writeBytes (k v s : Nat) : Nat :=
  v % byteSpan k + s / byteSpan k * byteSpan k

/-- `reinterpret_cast` reading the `k`-byte object at the start of the buffer. -/
def readBytes (k s : Nat) : Nat :=
  s % byteSpan k

theorem readBytes_writeBytes (k v s : Nat) (hv : v < byteSpan k) :
    readBytes k (writeBytes k v s) = v := by
  unfold readBytes writeBytes
  rw [Nat.add_mul_mod_self_right, Nat.mod_eq_of_lt hv, Nat.mod_eq_of_lt hv]

theorem writeBytes_full_mod (v s : Nat) (hs : s < wordSpan) :
    writeBytes ptrSize v s = v % wordSpan := by
  unfold wordSpan at hs
  unfold writeBytes
  rw [Nat.div_eq_of_lt hs, Nat.zero_mul, Nat.add_zero]
  rfl

theorem writeBytes_full (v s : Nat) (hv : v < wordSpan) (hs : s < wordSpan) :
    writeBytes ptrSize v s = v := by
  rw [writeBytes_full_mod v s hs, Nat.mod_eq_of_lt hv]

theorem writeBytes_lt (k v s : Nat) (hk : k ≤ ptrSize) (hs : s < wordSpan) :
    writeBytes k v s < wordSpan := by
  have hdvd : byteSpan k ∣ wordSpan := by
    unfold byteSpan wordSpan byteSpan
    exact pow_dvd_pow 2 (Nat.mul_le_mul_left 8 hk)
  have hpos := byteSpan_pos k
  have hdiv : s / byteSpan k < wordSpan / byteSpan k :=
    Nat.div_lt_div_of_lt_of_dvd hdvd hs
  have h1 : s / byteSpan k + 1 ≤ wordSpan / byteSpan k := hdiv
  calc writeBytes k v s
      < byteSpan k + s / byteSpan k * byteSpan k := by
        exact Nat.add_lt_add_right (Nat.mod_lt _ hpos) _
    _ = (s / byteSpan k + 1) * byteSpan k := by ring
    _ ≤ wordSpan / byteSpan k * byteSpan k := Nat.mul_le_mul_right _ h1
    _ = wordSpan := Nat.div_mul_cancel hdvd

/-- A heap of objects of class `C`, indexed by address. -/
def Heap (C : Type) := Nat → C

/-- Store object `c` at address `p`. -/
def Heap.write {C : Type} (w : Heap C) (p : Nat) (c : C) : Heap C :=
  fun q => if q = p then c else w q

/-- Read the object at address `p`. -/
def Heap.read {C : Type} (w : Heap C) (p : Nat) : C := w p

/-- A C++ value type that is trivially copyable and trivially destructible:
its values are in bijection with their `size`-byte object representations.
`enc` gives the representation bytes, `dec` reinterprets bytes as a value. -/
structure ValRep (V : Type) where
  size : Nat
  enc : V → Nat
  dec : Nat → V
  enc_lt : ∀ v, enc v < byteSpan size
  dec_enc : ∀ v, dec (enc v) = v

/-- Defunctionalized trampoline pointers for one `delegate<R(A)>` signature.
Each constructor is one lambda instantiation in `delegate.hpp`:
  * `free f` — the lambda of `connect<Function>()` (lines 147-149),
    instantiated per free function `Function`;
  * `member m` — the lambda of `connect<Candidate>(Type)` (lines 181-184)
    with `Candidate` a member function of class `C` and `Type = C *`;
  * `curried g` — the same lambda with `Candidate` a free function whose
    leading parameter has the curried value type `V`;
  * `functor` — the lambda of `connect(Invokable)` (lines 200-203),
    instantiated per function-object type `O` (one such type is modelled).
Distinct template instantiations yield distinct function pointers, so C++
pointer equality of trampolines is equality in this type. -/
inductive Tramp (C V O A R : Type) where
  | free (f : A → R)
  | member (m : C → A → R × C)
  | curried (g : V → A → R)
  | functor

/-- The delegate object: the two data members at lines 270-272. -/
structure delegate (T : Type) where
  storage : Nat
  fn : Option T

/-- Well-formedness: the buffer holds 8 bytes. -/
@[reducible]
def delegate.WF {T : Type} (d : delegate T) : Prop :=
  d.storage < wordSpan

/-- Default constructor (lines 92-96): zero-initializes the buffer and writes
a null `void *` into it; the trampoline is null. -/
def delegate.dflt {T : Type} : delegate T :=
  { storage := writeBytes ptrSize 0 0, fn := none }

/-- `connect<Function>()` (lines 142-150): writes a null `void *` into the
buffer and installs the free-function thunk. -/
def delegate.connectFree {C V O A R : Type} (f : A → R)
    (d : delegate (Tramp C V O A R)) : delegate (Tramp C V O A R) :=
  { storage := writeBytes ptrSize 0 d.storage, fn := some (Tramp.free f) }

/-- `connect<Candidate>(Type)` (lines 173-185) with `Candidate` a member
function and `Type = C *`: placement-news the instance pointer `p` (8 bytes)
into the buffer and installs the member thunk. -/
def delegate.connectMember {C V O A R : Type} (m : C → A → R × C) (p : Nat)
    (d : delegate (Tramp C V O A R)) : delegate (Tramp C V O A R) :=
  { storage := writeBytes ptrSize p d.storage, fn := some (Tramp.member m) }

/-- `connect<Candidate>(Type)` (lines 173-185) with `Candidate` a free
function curried on a leading value of type `V`: placement-news the value's
`VR.size` bytes into the buffer and installs the curried thunk. -/
def delegate.connectCurried {C V O A R : Type} (VR : ValRep V) (g : V → A → R)
    (v : V) (d : delegate (Tramp C V O A R)) : delegate (Tramp C V O A R) :=
  { storage := writeBytes VR.size (VR.enc v) d.storage,
    fn := some (Tramp.curried g) }

/-- `connect(Invokable)` (lines 192-204): placement-news the function
object's `OR.size` bytes into the buffer and installs the functor thunk. -/
def delegate.connectInvokable {C V O A R : Type} (OR : ValRep O) (o : O)
    (d : delegate (Tramp C V O A R)) : delegate (Tramp C V O A R) :=
  { storage := writeBytes OR.size (OR.enc o) d.storage,
    fn := some Tramp.functor }

/-- `reset()` (lines 211-214): writes a null `void *` into the buffer and
nulls the trampoline. -/
def delegate.reset {T : Type} (d : delegate T) : delegate T :=
  { storage := writeBytes ptrSize 0 d.storage, fn := none }

/-- `instance()` (lines 225-227): reinterprets the buffer's bytes as a
`const void *` and returns that pointer value, whatever the buffer holds. -/
def delegate.inst {T : Type} (d : delegate T) : Nat :=
  readBytes ptrSize d.storage

/-- `operator bool` (lines 252-255): true iff the trampoline is non-null. -/
def delegate.toBool {T : Type} (d : delegate T) : Bool :=
  d.fn.isSome

/-- `operator==` (lines 266-268): compares the two trampoline pointers and
nothing else.  Pointer equality of the defunctionalized trampolines is
propositional equality of the tags. -/
def delegate.eqFn {T : Type} (d other : delegate T) : Prop :=
  d.fn = other.fn

/-- Free `operator!=` (lines 288-291): the negation of `operator==`. -/
def delegate.neFn {T : Type} (lhs rhs : delegate T) : Prop :=
  ¬ delegate.eqFn lhs rhs

/-- The body of each trampoline lambda.  Given the buffer content, the heap
and the call arguments, produce the result, the buffer content after the call
(the lambda receives `storage_type &`) and the heap after the call.
  * `free` (lines 147-149): ignores the buffer, calls the function;
  * `member` (lines 181-184): reinterprets the buffer as the instance
    pointer, invokes the member on the pointed-to object, which mutates it;
  * `curried` (lines 181-184): reinterprets the buffer's low `VR.size`
    bytes as the value, passes it as leading argument;
  * `functor` (lines 200-203): reinterprets the buffer's low `OR.size`
    bytes as the function object, invokes it as an lvalue, so a mutable call
    operator updates the object's bytes in the buffer. -/
def Tramp.run {C V O A R : Type} (VR : ValRep V) (OR : ValRep O)
    (ocall : O → A → R × O) :
    Tramp C V O A R → Nat → Heap C → A → R × Nat × Heap C
  | Tramp.free f, s, w, a => (f a, s, w)
  | Tramp.member m, s, w, a =>
      let p := readBytes ptrSize s
      let rc := m (w.read p) a
      (rc.1, s, w.write p rc.2)
  | Tramp.curried g, s, w, a =>
      (g (VR.dec (readBytes VR.size s)) a, s, w)
  | Tramp.functor, s, w, a =>
      let o := OR.dec (readBytes OR.size s)
      let ro := ocall o a
      (ro.1, writeBytes OR.size (OR.enc ro.2) s, w)

/-- `operator()` (lines 243-246): asserts the trampoline is non-null (a null
trampoline is undefined behavior, modelled as `none`), then calls it with the
buffer and the arguments.  The result is the returned value together with the
delegate after the call (`storage` as the thunk left it, `fn` untouched) and
the heap after the call. -/
def delegate.invoke {C V O A R : Type} (VR : ValRep V) (OR : ValRep O)
    (ocall : O → A → R × O) (d : delegate (Tramp C V O A R)) (w : Heap C)
    (a : A) : Option (R × delegate (Tramp C V O A R) × Heap C) :=
  match d.fn with
  | none => none
  | some t =>
      let rsw := Tramp.run VR OR ocall t d.storage w a
      some (rsw.1, { storage := rsw.2.1, fn := d.fn }, rsw.2.2)

theorem readBytes_full (s : Nat) (hs : s < wordSpan) :
    readBytes ptrSize s = s :=
  Nat.mod_eq_of_lt hs

/-!
Compile-time acceptance of the function-object overload.

`connect(Invokable)` guards the binding with `static_assert`s (lines
194-197).  The facts those assertions query about the candidate type are
collected in `TypeTraits`; the conjunction the code actually checks is
`connectInvokableChecks`.
-/

/-- The compile-time facts about a candidate function-object type that the
`static_assert`s of `connect(Invokable)` can query: `sizeof`, `is_class`,
`is_trivially_copyable`, `is_trivially_destructible` and
`is_invocable_r` with the delegate's signature. -/
structure TypeTraits where
  sizeOf : Nat
  isClass : Bool
  isTriviallyCopyable : Bool
  isTriviallyDestructible : Bool
  isInvocableR : Bool

/-- The conjunction of the `static_assert`s in `connect(Invokable)`
(delegate.hpp lines 194-197): `sizeof(Invokable) < sizeof(void *)`,
`is_class`, `is_trivially_destructible`, `is_invocable_r`. -/
def connectInvokableChecks (t : TypeTraits) : Bool :=
  decide (t.sizeOf < ptrSize) && t.isClass && t.isTriviallyDestructible
    && t.isInvocableR

/-- Modelled from the spec's words, for comparison with
`connectInvokableChecks`: the claimed acceptance condition for a function
object — trivially copyable AND trivially destructible, size strictly below a
pointer's, a class type, invocable with the declared signature. -/
def claimedInvokableChecks (t : TypeTraits) : Bool :=
  t.isTriviallyCopyable && t.isTriviallyDestructible
    && decide (t.sizeOf < ptrSize) && t.isClass && t.isInvocableR

/-!
A concrete instantiation used to exercise the model: the class `C` is a
counter holding a `Nat`, the delegate signature is `Nat(Nat)`, the curried
value type and the function-object type are one byte wide (`Fin 256`).
-/

/-- Byte representation of a one-byte value type. -/
def byteRep : ValRep (Fin 256) where
  size := 1
  enc := Fin.val
  dec := fun n => ⟨n % 256, Nat.mod_lt n (by decide)⟩
  enc_lt := fun v => by simp [byteSpan]
  dec_enc := fun v => Fin.ext (Nat.mod_eq_of_lt v.isLt)

/-- The concrete trampoline-pointer type of the instantiation. -/
abbrev CTramp : Type := Tramp Nat (Fin 256) (Fin 256) Nat Nat

/-- `Counter::increment(int)`: adds to the counter, returns the new value. -/
def incr : Nat → Nat → Nat × Nat := fun c a => (c + a, c + a)

/-- `Counter::fetch(int)`: returns counter plus argument, does not mutate. -/
def fetch : Nat → Nat → Nat × Nat := fun c a => (c + a, c)

/-- The free function `addOne`. -/
def addOne : Nat → Nat := fun a => a + 1

/-- The free function `addTwo`. -/
def addTwo : Nat → Nat := fun a => a + 2

/-- A curried free function: scales its trailing argument by the value. -/
def scaleBy : Fin 256 → Nat → Nat := fun v a => v.val * a

/-- The call operator of the one-byte function-object type: accumulates the
argument into its own state and returns the sum. -/
def accum : Fin 256 → Nat → Nat × Fin 256 :=
  fun o a => (o.val + a, ⟨(o.val + a) % 256, Nat.mod_lt _ (by decide)⟩)

/-- A concrete function object. -/
def obj3 : Fin 256 := ⟨3, by decide⟩

theorem invoke_connectCurried {C V O A R : Type} (VR : ValRep V)
    (OR : ValRep O) (ocall : O → A → R × O) (g : V → A → R) (v : V)
    (d : delegate (Tramp C V O A R)) (w : Heap C) (a : A) :
    (d.connectCurried VR g v).invoke VR OR ocall w a =
      some (g v a, d.connectCurried VR g v, w) := by
  simp [delegate.invoke, delegate.connectCurried, Tramp.run,
    readBytes_writeBytes _ _ _ (VR.enc_lt v), VR.dec_enc]

theorem invoke_connectInvokable {C V O A R : Type} (VR : ValRep V)
    (OR : ValRep O) (ocall : O → A → R × O) (o : O)
    (d : delegate (Tramp C V O A R)) (w : Heap C) (a : A) :
    (d.connectInvokable OR o).invoke VR OR ocall w a =
      some ((ocall o a).1,
        { storage := writeBytes OR.size (OR.enc (ocall o a).2)
            ((d.connectInvokable OR o).storage),
          fn := some Tramp.functor }, w) := by
  simp [delegate.invoke, delegate.connectInvokable, Tramp.run,
    readBytes_writeBytes _ _ _ (OR.enc_lt o), OR.dec_enc]

/-- Claim C2: for every free function `f` matching the delegate's signature
and every argument list `a`, binding the delegate to `f` and invoking it with
`a` returns exactly `f a` — and the invocation touches neither the buffer nor
the heap. -/
theorem freeBind_invoke_eq_direct {C V O A R : Type} (VR : ValRep V)
    (OR : ValRep O) (ocall : O → A → R × O) (f : A → R)
    (d : delegate (Tramp C V O A R)) (w : Heap C) (a : A) :
    (d.connectFree f).invoke VR OR ocall w a =
      some (f a, d.connectFree f, w) := rfl

/-- Claim C3: for every curried free function `g` whose leading parameter has
a byte-representable (trivially copyable, trivially destructible) type of at
most pointer size, every value `v` and every argument list `a`, binding the
delegate to `(g, v)` and invoking it with `a` returns exactly `g v a`. -/
theorem curriedBind_invoke_eq_direct {C V O A R : Type} (VR : ValRep V)
    (OR : ValRep O) (ocall : O → A → R × O) (g : V → A → R) (v : V)
    (d : delegate (Tramp C V O A R)) (w : Heap C) (a : A)
    (hsz : VR.size ≤ ptrSize) :
    (d.connectCurried VR g v).invoke VR OR ocall w a =
      some (g v a, d.connectCurried VR g v, w) :=
  invoke_connectCurried VR OR ocall g v d w a

/-- Claim C4: for every function object of a byte-representable type whose
size is strictly below a pointer's, and every argument list `a`, binding the
delegate to the object `o` and invoking it with `a` returns exactly the
result of calling `o` directly on `a`; the object's updated bytes are written
back into the buffer and the heap is untouched. -/
theorem invokableBind_invoke_eq_direct {C V O A R : Type} (VR : ValRep V)
    (OR : ValRep O) (ocall : O → A → R × O) (o : O)
    (d : delegate (Tramp C V O A R)) (w : Heap C) (a : A)
    (hsz : OR.size < ptrSize) :
    (d.connectInvokable OR o).invoke VR OR ocall w a =
      some ((ocall o a).1,
        { storage := writeBytes OR.size (OR.enc (ocall o a).2)
            ((d.connectInvokable OR o).storage),
          fn := some Tramp.functor }, w) :=
  invoke_connectInvokable VR OR ocall o d w a

/-- Claim C7: a default-constructed delegate converts to `false`; after any
of the four binds it converts to `true`; after `reset` it converts to `false`
again — `operator bool` is true exactly when the trampoline is non-null. -/
theorem bool_tracks_binding {C V O A R : Type} (VR : ValRep V) :
    ((delegate.dflt : delegate (Tramp C V O A R)).toBool = false)
    ∧ (∀ (f : A → R) (d : delegate (Tramp C V O A R)),
        (d.connectFree f).toBool = true)
    ∧ (∀ (m : C → A → R × C) (p : Nat) (d : delegate (Tramp C V O A R)),
        (d.connectMember m p).toBool = true)
    ∧ (∀ (g : V → A → R) (v : V) (d : delegate (Tramp C V O A R)),
        (d.connectCurried VR g v).toBool = true)
    ∧ (∀ (OR : ValRep O) (o : O) (d : delegate (Tramp C V O A R)),
        (d.connectInvokable OR o).toBool = true)
    ∧ (∀ d : delegate (Tramp C V O A R), d.reset.toBool = false)
    ∧ (∀ d : delegate (Tramp C V O A R), d.toBool = true ↔ d.fn ≠ none) := by
  refine ⟨rfl, fun _ _ => rfl, fun _ _ _ => rfl, fun _ _ _ => rfl,
    fun _ _ _ => rfl, fun _ => rfl, fun d => ?_⟩
  cases h : d.fn <;> simp [delegate.toBool, h]

/-- Claim C1: for every member function `m` of class `C`, every instance of
`C` (the object at address `p` in heap `w`) and every argument list `a`:
binding the delegate to `(m, p)` and invoking it with `a` returns the same
result, and applies the same mutation to the instance, as calling the member
directly on the object at `p`; the delegate after the call is the bound one
unchanged, and `instance()` returns a pointer equal to `p`. -/
theorem memberBind_invoke_eq_direct {C V O A R : Type} (VR : ValRep V)
    (OR : ValRep O) (ocall : O → A → R × O) (m : C → A → R × C) (p : Nat)
    (d : delegate (Tramp C V O A R)) (w : Heap C) (a : A)
    (hd : d.WF) (hp : p < wordSpan) :
    (d.connectMember m p).invoke VR OR ocall w a =
      some ((m (w.read p) a).1, d.connectMember m p,
        w.write p (m (w.read p) a).2)
    ∧ (d.connectMember m p).inst = p := by
  have hmk : d.connectMember m p = delegate.mk p (some (Tramp.member m)) := by
    unfold delegate.connectMember
    rw [writeBytes_full p d.storage hp hd]
  rw [hmk]
  refine ⟨?_, ?_⟩
  · simp [delegate.invoke, Tramp.run, readBytes_full p hp]
  · simp [delegate.inst, readBytes_full p hp]

/-- Claim C1 witness: a counter at address 4096 holding 10; binding
`Counter::increment` and invoking with 5 returns 15 and stores 15 at the
address; `instance()` returns 4096. -/
theorem memberBind_invoke_eq_direct_witness :
    (((delegate.dflt : delegate CTramp).connectMember incr 4096).invoke
        byteRep byteRep accum (fun _ => (10 : Nat)) 5 =
      some (15, (delegate.dflt : delegate CTramp).connectMember incr 4096,
        Heap.write (fun _ => (10 : Nat)) 4096 15))
    ∧ ((delegate.dflt : delegate CTramp).connectMember incr 4096).inst
        = 4096 := by
  have h := memberBind_invoke_eq_direct byteRep byteRep accum incr 4096
    delegate.dflt (fun _ => (10 : Nat)) 5 (by decide) (by decide)
  simpa [incr, Heap.read] using h

/-- Claim C6: two delegates compare equal exactly when their trampoline
pointers are identical; `operator!=` is the negation; the same member or
curried function bound with different instances or values yields equal
delegates; different functions, or different binding kinds, yield unequal
delegates; the buffer contents never enter the comparison. -/
theorem delegate_eq_iff_same_fn {C V O A R : Type} (VR : ValRep V) :
    (∀ d1 d2 : delegate (Tramp C V O A R), d1.eqFn d2 ↔ d1.fn = d2.fn)
    ∧ (∀ d1 d2 : delegate (Tramp C V O A R), d1.neFn d2 ↔ ¬ d1.eqFn d2)
    ∧ (∀ (m : C → A → R × C) (p1 p2 : Nat)
        (d1 d2 : delegate (Tramp C V O A R)),
        (d1.connectMember m p1).eqFn (d2.connectMember m p2))
    ∧ (∀ (g : V → A → R) (v1 v2 : V) (d1 d2 : delegate (Tramp C V O A R)),
        (d1.connectCurried VR g v1).eqFn (d2.connectCurried VR g v2))
    ∧ (∀ (f1 f2 : A → R) (d1 d2 : delegate (Tramp C V O A R)), f1 ≠ f2 →
        ¬ (d1.connectFree f1).eqFn (d2.connectFree f2))
    ∧ (∀ (m1 m2 : C → A → R × C) (p1 p2 : Nat)
        (d1 d2 : delegate (Tramp C V O A R)), m1 ≠ m2 →
        ¬ (d1.connectMember m1 p1).eqFn (d2.connectMember m2 p2))
    ∧ (∀ (f : A → R) (m : C → A → R × C) (p : Nat)
        (d1 d2 : delegate (Tramp C V O A R)),
        ¬ (d1.connectFree f).eqFn (d2.connectMember m p))
    ∧ (∀ (s1 s2 : Nat) (d1 d2 : delegate (Tramp C V O A R)),
        (delegate.mk s1 d1.fn).eqFn (delegate.mk s2 d2.fn) ↔ d1.eqFn d2) := by
  refine ⟨fun d1 d2 => Iff.rfl, fun d1 d2 => Iff.rfl, ?_, ?_, ?_, ?_, ?_, ?_⟩
  · intro m p1 p2 d1 d2
    simp [delegate.eqFn, delegate.connectMember]
  · intro g v1 v2 d1 d2
    simp [delegate.eqFn, delegate.connectCurried]
  · intro f1 f2 d1 d2 hne h
    simp [delegate.eqFn, delegate.connectFree] at h
    exact hne h
  · intro m1 m2 p1 p2 d1 d2 hne h
    simp [delegate.eqFn, delegate.connectMember] at h
    exact hne h
  · intro f m p d1 d2 h
    simp [delegate.eqFn, delegate.connectFree, delegate.connectMember] at h
  · intro s1 s2 d1 d2
    simp [delegate.eqFn]

/-- Claim C6 witness: the same member bound to two different instances gives
equal delegates; two different free functions give unequal delegates. -/
theorem delegate_eq_iff_same_fn_witness :
    ((delegate.dflt.connectMember incr 1).eqFn
        ((delegate.dflt : delegate CTramp).connectMember incr 2))
    ∧ ¬ ((delegate.dflt.connectFree addOne).eqFn
        ((delegate.dflt : delegate CTramp).connectFree addTwo)) := by
  refine ⟨(delegate_eq_iff_same_fn byteRep).2.2.1 incr 1 2 _ _, ?_⟩
  exact (delegate_eq_iff_same_fn byteRep).2.2.2.2.1 addOne addTwo _ _
    (fun h => by simpa [addOne, addTwo] using congrFun h 0)

/-- Claim C9: `instance()` returns the buffer's bytes reinterpreted as a raw
pointer, whatever binding produced them (it is a total function: it never
fails and never dereferences); after binding a free function, and after
`reset`, the buffer holds the null marker, so `instance()` returns the null
pointer; a default-constructed delegate also reports the null pointer. -/
theorem instance_reinterprets_storage {C V O A R : Type} :
    (∀ d : delegate (Tramp C V O A R), d.inst = readBytes ptrSize d.storage)
    ∧ (∀ (f : A → R) (d : delegate (Tramp C V O A R)), d.WF →
        (d.connectFree f).inst = 0)
    ∧ (∀ d : delegate (Tramp C V O A R), d.WF → d.reset.inst = 0)
    ∧ ((delegate.dflt : delegate (Tramp C V O A R)).inst = 0) := by
  have h0 : (0 : Nat) < wordSpan := Nat.pos_pow_of_pos _ (by decide)
  refine ⟨fun d => rfl, ?_, ?_, by rfl⟩
  · intro f d hd
    simp [delegate.inst, delegate.connectFree,
      writeBytes_full 0 d.storage h0 hd, readBytes_full 0 h0]
  · intro d hd
    simp [delegate.inst, delegate.reset,
      writeBytes_full 0 d.storage h0 hd, readBytes_full 0 h0]

/-- Claim C9 witness: a delegate that was bound to a member and then rebound
to a free function, or reset, reports the null instance pointer. -/
theorem instance_reinterprets_storage_witness :
    (((delegate.dflt : delegate CTramp).connectMember incr 4096).connectFree
        addOne).inst = 0
    ∧ ((delegate.dflt : delegate CTramp).connectMember incr 4096).reset.inst
        = 0 := by
  refine ⟨instance_reinterprets_storage.2.1 addOne
      ((delegate.dflt : delegate CTramp).connectMember incr 4096) (by decide),
    instance_reinterprets_storage.2.2.1
      ((delegate.dflt : delegate CTramp).connectMember incr 4096)
      (by decide)⟩

/-- Claim C10: invoking a bound delegate never touches the trampoline: the
call succeeds, and afterwards the delegate's trampoline is unchanged, it is
still truthy and it compares equal to its pre-call self; only the buffer (and
the heap) may have been mutated by the bound callable. -/
theorem invoke_frame {C V O A R : Type} (VR : ValRep V) (OR : ValRep O)
    (ocall : O → A → R × O) (d : delegate (Tramp C V O A R)) (w : Heap C)
    (a : A) (hb : d.fn ≠ none) :
    ∃ r d' w', d.invoke VR OR ocall w a = some (r, d', w')
      ∧ d'.fn = d.fn ∧ d'.toBool = true ∧ d'.eqFn d := by
  cases hfn : d.fn with
  | none => exact absurd hfn hb
  | some t =>
      refine ⟨(Tramp.run VR OR ocall t d.storage w a).1,
        delegate.mk (Tramp.run VR OR ocall t d.storage w a).2.1 (some t),
        (Tramp.run VR OR ocall t d.storage w a).2.2, ?_, rfl, rfl, ?_⟩
      · simp [delegate.invoke, hfn]
      · simp [delegate.eqFn, hfn]

/-- Claim C10 witness: invoking a delegate bound to a free function keeps the
trampoline, the truthiness and the equality class intact. -/
theorem invoke_frame_witness :
    ∃ r d' w',
      ((delegate.dflt : delegate CTramp).connectFree addOne).invoke
          byteRep byteRep accum (fun _ => (0 : Nat)) 7 = some (r, d', w')
      ∧ d'.fn = ((delegate.dflt : delegate CTramp).connectFree addOne).fn
      ∧ d'.toBool = true
      ∧ d'.eqFn ((delegate.dflt : delegate CTramp).connectFree addOne) :=
  invoke_frame byteRep byteRep accum _ _ 7
    (by simp [delegate.connectFree])

/-- Claim C3 witness: currying `scaleBy` with the byte value 3 and invoking
with 7 returns 21, the direct result of `scaleBy 3 7`. -/
theorem curriedBind_invoke_eq_direct_witness :
    ((delegate.dflt : delegate CTramp).connectCurried byteRep scaleBy
        obj3).invoke byteRep byteRep accum (fun _ => (0 : Nat)) 7 =
      some (21,
        (delegate.dflt : delegate CTramp).connectCurried byteRep scaleBy obj3,
        fun _ => (0 : Nat)) := by
  have h := curriedBind_invoke_eq_direct byteRep byteRep accum scaleBy obj3
    (delegate.dflt : delegate CTramp) (fun _ => (0 : Nat)) 7 (by decide)
  simpa [scaleBy, obj3] using h

/-- Claim C4 witness: binding the one-byte accumulator object holding 3 and
invoking with 7 returns 10, the direct result of calling the object, and the
object's updated byte is written back into the buffer. -/
theorem invokableBind_invoke_eq_direct_witness :
    ((delegate.dflt : delegate CTramp).connectInvokable byteRep obj3).invoke
        byteRep byteRep accum (fun _ => (0 : Nat)) 7 =
      some ((accum obj3 7).1,
        { storage := writeBytes byteRep.size (byteRep.enc (accum obj3 7).2)
            (((delegate.dflt : delegate CTramp).connectInvokable byteRep
              obj3).storage),
          fn := some Tramp.functor }, fun _ => (0 : Nat)) :=
  invokableBind_invoke_eq_direct byteRep byteRep accum obj3
    (delegate.dflt : delegate CTramp) (fun _ => (0 : Nat)) 7 (by decide)

/-- Claim C5 counterexample: a one-byte, trivially destructible, invocable
class type that is NOT trivially copyable passes every `static_assert` of
`connect(Invokable)` — the code accepts a binding the claim says is rejected,
because the function-object overload never checks trivial copyability. -/
theorem invokable_checks_counterexample :
    connectInvokableChecks
        { sizeOf := 1, isClass := true, isTriviallyCopyable := false,
          isTriviallyDestructible := true, isInvocableR := true } = true
    ∧ ({ sizeOf := 1, isClass := true, isTriviallyCopyable := false,
          isTriviallyDestructible := true, isInvocableR := true
          : TypeTraits }).isTriviallyCopyable = false
    ∧ claimedInvokableChecks
        { sizeOf := 1, isClass := true, isTriviallyCopyable := false,
          isTriviallyDestructible := true, isInvocableR := true } = false := by
  decide

/-- Claim C5 amended: `connect(Invokable)` accepts a function-object type
exactly when its size is strictly below a pointer's, it is a class type, it
is trivially destructible, and it is invocable with the declared signature;
trivial copyability is not among the checks of this overload.  The check is a
compile-time predicate on the type's traits, with no runtime component. -/
theorem invokable_checks_amended (t : TypeTraits) :
    connectInvokableChecks t = true ↔
      (t.sizeOf < ptrSize ∧ t.isClass = true
        ∧ t.isTriviallyDestructible = true ∧ t.isInvocableR = true) := by
  simp [connectInvokableChecks, and_assoc]

/-- Claim C8 counterexample: bind a member with the instance pointer 256,
then rebind a one-byte function object holding 3.  The placement-new
overwrites only the low byte of the buffer, so `instance()` reads 259, while
the identical bind on a fresh delegate reads 3: the resulting state is not
identical to a fresh delegate's, and `instance()` depends on the previous
binding. -/
theorem rebind_residual_counterexample :
    (((delegate.dflt : delegate CTramp).connectMember incr
        256).connectInvokable byteRep obj3).inst = 259
    ∧ ((delegate.dflt : delegate CTramp).connectInvokable byteRep obj3).inst
        = 3 := by
  decide

/-- Claim C8 amended: rebinding fully overwrites the trampoline, and the
binds that write a full pointer (free function, member) also fully overwrite
the buffer, yielding exactly the state of a fresh delegate given the same
bind; for payloads smaller than a pointer (curried value, function object)
the payload's own bytes are overwritten, so invocation results, heap effects,
truthiness and equality depend only on the new binding — but the buffer's
high bytes, and hence `instance()`, may retain residue of the previous
binding; `reset` restores exactly the empty state. -/
theorem rebind_overwrites_amended {C V O A R : Type} (VR : ValRep V)
    (OR : ValRep O) (ocall : O → A → R × O) :
    (∀ (f : A → R) (d : delegate (Tramp C V O A R)), d.WF →
        d.connectFree f = delegate.dflt.connectFree f)
    ∧ (∀ (m : C → A → R × C) (p : Nat) (d : delegate (Tramp C V O A R)),
        d.WF → d.connectMember m p = delegate.dflt.connectMember m p)
    ∧ (∀ (g : V → A → R) (v : V) (d : delegate (Tramp C V O A R))
        (w : Heap C) (a : A),
        ((d.connectCurried VR g v).invoke VR OR ocall w a).map
            (fun x => (x.1, x.2.2)) =
          ((delegate.dflt.connectCurried VR g v).invoke VR OR ocall w a).map
            (fun x => (x.1, x.2.2))
        ∧ (d.connectCurried VR g v).fn
            = (delegate.dflt.connectCurried VR g v).fn)
    ∧ (∀ (o : O) (d : delegate (Tramp C V O A R)) (w : Heap C) (a : A),
        ((d.connectInvokable OR o).invoke VR OR ocall w a).map
            (fun x => (x.1, x.2.2)) =
          ((delegate.dflt.connectInvokable OR o).invoke VR OR ocall w a).map
            (fun x => (x.1, x.2.2))
        ∧ (d.connectInvokable OR o).fn
            = (delegate.dflt.connectInvokable OR o).fn)
    ∧ (∀ d : delegate (Tramp C V O A R), d.WF → d.reset = delegate.dflt) := by
  have h0 : (0 : Nat) < wordSpan := Nat.pos_pow_of_pos _ (by decide)
  have hdflt : (delegate.dflt : delegate (Tramp C V O A R)).storage = 0 := rfl
  have hW : (delegate.dflt : delegate (Tramp C V O A R)).WF := by
    show (delegate.dflt : delegate (Tramp C V O A R)).storage < wordSpan
    rw [hdflt]
    exact h0
  refine ⟨?_, ?_, ?_, ?_, ?_⟩
  · intro f d hd
    unfold delegate.connectFree
    rw [writeBytes_full 0 d.storage h0 hd, writeBytes_full 0 _ h0 hW]
  · intro m p d hd
    unfold delegate.connectMember
    rw [writeBytes_full_mod p d.storage hd, writeBytes_full_mod p _ hW]
  · intro g v d w a
    rw [invoke_connectCurried VR OR ocall g v d w a,
      invoke_connectCurried VR OR ocall g v delegate.dflt w a]
    exact ⟨rfl, rfl⟩
  · intro o d w a
    rw [invoke_connectInvokable VR OR ocall o d w a,
      invoke_connectInvokable VR OR ocall o delegate.dflt w a]
    exact ⟨rfl, rfl⟩
  · intro d hd
    unfold delegate.reset
    rw [writeBytes_full 0 d.storage h0 hd]
    unfold delegate.dflt
    rw [writeBytes_full 0 0 h0 h0]

/-- Claim C8 amended witness: a delegate previously bound to a member is,
after rebinding a free function, byte-for-byte the fresh bound delegate; and
`reset` returns it to the exact default state. -/
theorem rebind_overwrites_amended_witness :
    ((delegate.dflt : delegate CTramp).connectMember incr 256).connectFree
        addOne = delegate.dflt.connectFree addOne
    ∧ ((delegate.dflt : delegate CTramp).connectMember incr 256).reset
        = delegate.dflt := by
  refine ⟨(rebind_overwrites_amended byteRep byteRep accum).1 addOne _
      (by decide),
    (rebind_overwrites_amended byteRep byteRep accum).2.2.2.2 _ (by decide)⟩

end entt
